import Mathlib

/-
Shallow embedding of the property-tracking backend (src/backend/server.py)
and verification of the specification claims about it.

Conventions of the embedding:
* Python strings are `List Char` (abbreviated `Str`); Python floats are `ℚ`;
  Python `Optional[T]` is `Option T`; Python truthiness of an optional float
  (`if x:`) is `qtruthy`, of an optional string `struthy`.
* Timestamps are abstract `Nat` values passed in as a `now` parameter.
* The Mongo document store and the HTTP fetcher are external collaborators;
  they are modelled as explicit lists of records and an explicit
  `FetchOutcome` value (transport failure, or a response with a status code
  and the pieces of the page the code actually reads).
-/

namespace PropertyServer

abbrev Str := List Char

/-- Python truthiness of an `Optional[float]`: `None` and `0.0` are falsy. -/
def qtruthy : Option ℚ → Bool
  | none => false
  | some x => decide (x ≠ 0)

/-- Python truthiness of an `Optional[str]`: `None` and `""` are falsy. -/
def struthy : Option Str → Bool
  | none => false
  | some s => decide (s ≠ [])

/-- Python `x or 0` on an `Optional[float]` (both `None` and `0.0` give `0`). -/
def orQ (o : Option ℚ) : ℚ := o.getD 0

/-- Round a rational to the nearest integer, ties to even (Python `round`). -/
def roundHalfEven (q : ℚ) : ℤ :=
  let f : ℤ := ⌊q⌋
  let r : ℚ := q - f
  if r < 1/2 then f
  else if 1/2 < r then f + 1
  else if f % 2 = 0 then f else f + 1

/-- Python `round(x, 2)` modelled on exact rationals. -/
def pyRound2 (q : ℚ) : ℚ := (roundHalfEven (q * 100) : ℚ) / 100

-- ===================== calculate_property_financials =====================

/-- Raw financial inputs read by `calculate_property_financials` from the
property dict. -/
structure FinIn where
  rent_amount : Option ℚ
  rent_frequency : Str
  current_value : Option ℚ
  outstanding_loan : Option ℚ
  monthly_loan_repayment : Option ℚ
  yearly_expenses : Option ℚ
  property_type : Str

/-- Derived metrics returned by `calculate_property_financials`. -/
structure FinOut where
  monthly_rent : Option ℚ
  net_value : Option ℚ
  annual_rental_income : Option ℚ
  annual_loan_repayments : Option ℚ
  yearly_cash_flow : Option ℚ
  yearly_shortage : Option ℚ
deriving DecidableEq

/-- Embedding of `calculate_property_financials` (server.py lines 167-204).
Truthiness tests (`if prop.get(...)`), `is not None` tests and `or 0`
defaults are carried over exactly as in the source. -/
def calculate_property_financials (prop : FinIn) : FinOut :=
  let monthly_rent : Option ℚ :=
    if qtruthy prop.rent_amount then
      if prop.rent_frequency = "weekly".data then
        some (orQ prop.rent_amount * 52 / 12)
      else
        some (orQ prop.rent_amount)
    else none
  let net_value : Option ℚ :=
    match prop.current_value with
    | some v => some (v - orQ prop.outstanding_loan)
    | none => none
  let annual_rental_income : Option ℚ :=
    if qtruthy monthly_rent then some (orQ monthly_rent * 12) else none
  let annual_loan_repayments : Option ℚ :=
    if qtruthy prop.monthly_loan_repayment then
      some (orQ prop.monthly_loan_repayment * 12)
    else none
  let yearly_expenses : ℚ := orQ prop.yearly_expenses
  let yearly_cash_flow : Option ℚ :=
    if prop.property_type = "investment".data ∧ annual_rental_income ≠ none then
      some (orQ annual_rental_income -
        (orQ annual_loan_repayments + yearly_expenses))
    else none
  let yearly_shortage : Option ℚ :=
    if prop.property_type = "investment".data ∧ annual_rental_income ≠ none then
      some ((orQ annual_loan_repayments + yearly_expenses) -
        orQ annual_rental_income)
    else none
  { monthly_rent := monthly_rent
    net_value := net_value
    annual_rental_income := annual_rental_income
    annual_loan_repayments := annual_loan_repayments
    yearly_cash_flow := yearly_cash_flow
    yearly_shortage := yearly_shortage }

-- ===================== parse_address_from_url =====================

/-- Character class `[a-z-]`. -/
def lowerDash (c : Char) : Bool := c.isLower || c = '-'

/-- ASCII word character, the regex class `\w`. -/
def wordCh (c : Char) : Bool := c.isAlphanum || c = '_'

/-- Length of the maximal run of characters satisfying `p` at the head. -/
def takeRun (p : Char → Bool) : Str → Nat
  | [] => 0
  | c :: t => if p c then takeRun p t + 1 else 0

/-- Candidate `(consumed, rest)` splits for a greedy bounded repetition of the
character class `p`, longest first: exactly the backtracking order of a Python
regex quantifier over a character class. -/
def splits (p : Char → Bool) (lo : Nat) (hi : Option Nat) (s : Str) :
    List (Str × Str) :=
  let m := takeRun p s
  let top := match hi with | none => m | some h => min h m
  if top < lo then []
  else (List.range (top + 1 - lo)).map
    (fun i => (s.take (top - i), s.drop (top - i)))

/-- Boolean test that the first list is a leading segment of the second. -/
def isPre : Str → Str → Bool
  | [], _ => true
  | _ :: _, [] => false
  | c :: cs, d :: ds => c = d && isPre cs ds

/-- Consume one expected literal character. -/
def expect (c : Char) : Str → Option Str
  | [] => none
  | d :: t => if d = c then some t else none

/-- Consume an expected literal string. -/
def expectStr (lit s : Str) : Option Str :=
  if isPre lit s then some (s.drop lit.length) else none

/-- Capture groups of the structured URL pattern:
state, suburb, postcode, street, street number. -/
abbrev Caps5 := Str × Str × Str × Str × Str

/-- Match the structured pattern anchored at the head of `s`, with Python
backtracking semantics: slash, 2-3 lowercase letters (state), slash, one or
more of `[a-z-]` (suburb), dash, exactly 4 digits (postcode), slash, one or
more of `[a-z-]` (street), slash, digits plus an optional lowercase letter
(street number), then the literal `-pid-`. -/
def matchP1At (s : Str) : Option Caps5 :=
  (expect '/' s).bind fun s1 =>
  (splits Char.isLower 2 (some 3) s1).findSome? fun (g1, s2) =>
  (expect '/' s2).bind fun s3 =>
  (splits lowerDash 1 none s3).findSome? fun (g2, s4) =>
  (expect '-' s4).bind fun s5 =>
  (splits Char.isDigit 4 (some 4) s5).findSome? fun (g3, s6) =>
  (expect '/' s6).bind fun s7 =>
  (splits lowerDash 1 none s7).findSome? fun (g4, s8) =>
  (expect '/' s8).bind fun s9 =>
  (splits Char.isDigit 1 none s9).findSome? fun (d, s10) =>
  (splits Char.isLower 0 (some 1) s10).findSome? fun (l, s11) =>
  (expectStr ("-pid-".data) s11).map fun _ => (g1, g2, g3, g4, d ++ l)

/-- The leftmost-match search of `re.search` for the structured pattern. -/
def searchP1 : Str → Option Caps5
  | [] => matchP1At []
  | s@(_ :: t) =>
    match matchP1At s with
    | some r => some r
    | none => searchP1 t

/-- Match the regex `/property/([^/]+)` anchored at the head of `s`. -/
def matchP2At (s : Str) : Option Str :=
  (expectStr ("/property/".data) s).bind fun s1 =>
  (splits (fun c => !(c = '/')) 1 none s1).findSome? fun (g, _) => some g

/-- Leftmost-match search for the legacy `/property/<slug>` pattern. -/
def searchP2 : Str → Option Str
  | [] => matchP2At []
  | s@(_ :: t) =>
    match matchP2At s with
    | some r => some r
    | none => searchP2 t

/-- Match the end-anchored trailing-location pattern at the head of `s`:
one or more word characters (suburb), dash, 2-3 word characters (state),
dash, exactly 4 digits (postcode), end of string. -/
def matchP3At (s : Str) : Option (Str × Str × Str) :=
  (splits wordCh 1 none s).findSome? fun (g1, s1) =>
  (expect '-' s1).bind fun s2 =>
  (splits wordCh 2 (some 3) s2).findSome? fun (g2, s3) =>
  (expect '-' s3).bind fun s4 =>
  (splits Char.isDigit 4 (some 4) s4).findSome? fun (g3, s5) =>
  if s5 = [] then some (g1, g2, g3) else none

/-- Leftmost-match search for the trailing location pattern. -/
def searchP3 : Str → Option (Str × Str × Str)
  | [] => matchP3At []
  | s@(_ :: t) =>
    match matchP3At s with
    | some r => some r
    | none => searchP3 t

/-- Python `str.replace('-', ' ')`. -/
def replDash (s : Str) : Str := s.map (fun c => if c = '-' then ' ' else c)

/-- Helper for `pyTitle`: the flag records whether the previous character was
a cased (alphabetic) character. -/
def pyTitleAux : Bool → Str → Str
  | _, [] => []
  | prev, c :: t =>
    if c.isAlpha then
      (if prev then c.toLower else c.toUpper) :: pyTitleAux true t
    else
      c :: pyTitleAux false t

/-- Python `str.title()` restricted to ASCII. -/
def pyTitle (s : Str) : Str := pyTitleAux false s

/-- Python `str.strip()` (ASCII whitespace). -/
def pyStrip (s : Str) : Str :=
  ((s.dropWhile Char.isWhitespace).reverse.dropWhile Char.isWhitespace).reverse

/-- Python `str.rstrip('/')`. -/
def rstripSlash (s : Str) : Str :=
  (s.reverse.dropWhile (fun c => c = '/')).reverse

/-- Python `str.lower()` restricted to ASCII. -/
def pyLower (s : Str) : Str := s.map Char.toLower

/-- Result dict of `parse_address_from_url`. -/
structure ParsedAddr where
  address : Str
  suburb : Option Str
  state : Option Str
  postcode : Option Str
deriving DecidableEq

/-- Embedding of `parse_address_from_url` (server.py lines 206-243): the
structured pattern is tried on the lowercased URL first; otherwise the legacy
`/property/<slug>` pattern on the original URL, with a secondary attempt to
read a trailing `suburb-state-postcode` from the URL with trailing slashes
stripped; otherwise all fields stay empty. -/
def parse_address_from_url (url : Str) : ParsedAddr :=
  match searchP1 (pyLower url) with
  | some (g1, g2, g3, g4, g5) =>
    let state := g1.map Char.toUpper
    let suburb := pyTitle (replDash g2)
    let street := pyTitle (replDash g4)
    { address := g5 ++ [' '] ++ street ++ [',', ' '] ++ suburb ++ [' ']
        ++ state ++ [' '] ++ g3
      suburb := some suburb
      state := some state
      postcode := some g3 }
  | none =>
    match searchP2 url with
    | some slug =>
      let address := pyTitle (replDash slug)
      match searchP3 (rstripSlash url) with
      | some (h1, h2, h3) =>
        { address := address
          suburb := some (pyTitle h1)
          state := some (h2.map Char.toUpper)
          postcode := some h3 }
      | none =>
        { address := address, suburb := none, state := none, postcode := none }
    | none =>
      { address := [], suburb := none, state := none, postcode := none }

-- ===================== scrape_property_data =====================

/-- Outcome of the single outbound fetch performed by the harvester. The
fetcher and the HTML parser are external collaborators: a response carries
the status code and exactly the pieces of the parsed page the code reads
(the `og:title` and `og:image` meta contents) plus the page's body text. -/
inductive FetchOutcome where
  | transportError
  | response (status : Nat) (ogTitle : Option Str) (ogImage : Option Str)
      (bodyText : Str)
deriving DecidableEq

/-- Result dict of `scrape_property_data`. -/
structure ScrapeData where
  address : Str
  current_value : Option ℚ
  image_url : Option Str
  suburb : Option Str
  state : Option Str
  postcode : Option Str
deriving DecidableEq

/-- The URL-derived floor data: the initial dict of `scrape_property_data`
after `data.update(url_data)`. -/
def scrapeFloor (url : Str) : ScrapeData :=
  let ud := parse_address_from_url url
  { address := ud.address
    current_value := none
    image_url := none
    suburb := ud.suburb
    state := ud.state
    postcode := ud.postcode }

/-- Embedding of `scrape_property_data` (server.py lines 245-290). A non-200
response returns the floor data unchanged; any exception (timeout or other
transport failure) is caught and likewise returns the floor data; on a 200
response the address is overridden by the first `|`-segment of the `og:title`
content when that strips to a non-empty string, and the `og:image` content is
captured. Nothing else of the page is consulted. -/
def scrape_property_data (url : Str) (fo : FetchOutcome) : ScrapeData :=
  let data := scrapeFloor url
  match fo with
  | .transportError => data
  | .response status ogTitle ogImage _ =>
    if status ≠ 200 then data
    else
      let data :=
        match ogTitle with
        | some t =>
          if t ≠ [] then
            let title := pyStrip (t.takeWhile (fun c => !(c = '|')))
            if title ≠ [] then { data with address := title } else data
          else data
        | none => data
      match ogImage with
      | some i => if i ≠ [] then { data with image_url := some i } else data
      | none => data

-- ===================== property records and operations =====================

/-- Stored property document (the `Property` model plus the dict fields the
routes write). -/
structure PropertyRec where
  id : Str
  url : Option Str
  address : Str
  nickname : Option Str
  property_type : Str
  current_value : Option ℚ
  previous_value : Option ℚ
  daily_change : Option ℚ
  daily_change_percent : Option ℚ
  outstanding_loan : Option ℚ
  monthly_loan_repayment : Option ℚ
  rent_amount : Option ℚ
  rent_frequency : Str
  monthly_rent : Option ℚ
  yearly_expenses : Option ℚ
  net_value : Option ℚ
  annual_rental_income : Option ℚ
  annual_loan_repayments : Option ℚ
  yearly_cash_flow : Option ℚ
  yearly_shortage : Option ℚ
  image_url : Option Str
  bedrooms : Option ℤ
  bathrooms : Option ℤ
  parking : Option ℤ
  suburb : Option Str
  state : Option Str
  postcode : Option Str
  status : Str
  last_updated : Nat
  created_at : Nat
deriving DecidableEq

/-- Projection of a property document to the inputs of
`calculate_property_financials`. -/
def PropertyRec.finIn (p : PropertyRec) : FinIn :=
  { rent_amount := p.rent_amount
    rent_frequency := p.rent_frequency
    current_value := p.current_value
    outstanding_loan := p.outstanding_loan
    monthly_loan_repayment := p.monthly_loan_repayment
    yearly_expenses := p.yearly_expenses
    property_type := p.property_type }

/-- Write the six derived fields of `calculate_property_financials` into a
property document (the `property_data.update(financials)` step). -/
def PropertyRec.withFin (p : PropertyRec) (f : FinOut) : PropertyRec :=
  { p with
    monthly_rent := f.monthly_rent
    net_value := f.net_value
    annual_rental_income := f.annual_rental_income
    annual_loan_repayments := f.annual_loan_repayments
    yearly_cash_flow := f.yearly_cash_flow
    yearly_shortage := f.yearly_shortage }

/-- History document (the `PropertyHistory` model, sans its own id). -/
structure HistoryEntry where
  property_id : Str
  value : ℚ
  loan : Option ℚ
  net_value : Option ℚ
  recorded_at : Nat
deriving DecidableEq

/-- Request body of `POST /properties` (the `PropertyCreate` model). -/
structure PropertyCreate where
  url : Option Str
  nickname : Option Str
  address : Option Str
  suburb : Option Str
  state : Option Str
  postcode : Option Str
  property_type : Str
  current_value : Option ℚ
  outstanding_loan : Option ℚ
  monthly_loan_repayment : Option ℚ
  rent_amount : Option ℚ
  rent_frequency : Str
  yearly_expenses : Option ℚ
deriving DecidableEq

/-- Request body of `PATCH /properties/...` (the `PropertyUpdate` model);
a `none` field is absent from the request. -/
structure PropertyUpdate where
  nickname : Option Str
  address : Option Str
  suburb : Option Str
  state : Option Str
  postcode : Option Str
  property_type : Option Str
  current_value : Option ℚ
  outstanding_loan : Option ℚ
  monthly_loan_repayment : Option ℚ
  rent_amount : Option ℚ
  rent_frequency : Option Str
  yearly_expenses : Option ℚ
  bedrooms : Option ℤ
  bathrooms : Option ℤ
  parking : Option ℤ
deriving DecidableEq

/-- The initial `property_data` dict of `create_property` (server.py lines
302-328), before the URL-derived address defaults are applied. `pid` is the
generated record id and `now` the creation timestamp. -/
def create_base (input : PropertyCreate) (pid : Str) (now : Nat) :
    PropertyRec :=
  { id := pid
    url := input.url
    address := input.address.getD []
    nickname := input.nickname
    property_type := input.property_type
    current_value := input.current_value
    previous_value := none
    daily_change := none
    daily_change_percent := none
    outstanding_loan := input.outstanding_loan
    monthly_loan_repayment := input.monthly_loan_repayment
    rent_amount := input.rent_amount
    rent_frequency := input.rent_frequency
    monthly_rent := none
    yearly_expenses := input.yearly_expenses
    net_value := none
    annual_rental_income := none
    annual_loan_repayments := none
    yearly_cash_flow := none
    yearly_shortage := none
    image_url := none
    bedrooms := none
    bathrooms := none
    parking := none
    suburb := input.suburb
    state := input.state
    postcode := input.postcode
    status := "active".data
    last_updated := now
    created_at := now }

/-- The document of `create_property` after the URL-derived address defaults
(server.py lines 330-340): each of the four address fields is overridden by
the URL-parsed one exactly when the parsed one is truthy and the caller did
not supply that field. -/
def create_merged (input : PropertyCreate) (pid : Str) (now : Nat) :
    PropertyRec :=
  match input.url with
  | some u =>
    let ud := parse_address_from_url u
    { create_base input pid now with
      address :=
        if ud.address ≠ [] ∧ ¬ struthy input.address then ud.address
        else (create_base input pid now).address
      suburb :=
        if struthy ud.suburb ∧ ¬ struthy input.suburb then ud.suburb
        else (create_base input pid now).suburb
      state :=
        if struthy ud.state ∧ ¬ struthy input.state then ud.state
        else (create_base input pid now).state
      postcode :=
        if struthy ud.postcode ∧ ¬ struthy input.postcode then ud.postcode
        else (create_base input pid now).postcode }
  | none => create_base input pid now

/-- Embedding of `create_property` (server.py lines 298-360): build the
document from the input, default address fields from the URL when the caller
did not supply them, compute financials, insert, and record an initial
history entry when a (truthy) value was provided. -/
def create_property (input : PropertyCreate) (pid : Str) (now : Nat) :
    PropertyRec × Option HistoryEntry :=
  let merged : PropertyRec := create_merged input pid now
  let financials := calculate_property_financials merged.finIn
  let prop := merged.withFin financials
  let hist : Option HistoryEntry :=
    if qtruthy input.current_value then
      some { property_id := pid
             value := orQ input.current_value
             loan := input.outstanding_loan
             net_value := financials.net_value
             recorded_at := now }
    else none
  (prop, hist)

/-- Merge of one optional stored field under a partial update: a field
present in the request overwrites, an absent one retains the stored value. -/
def mergeOpt {α : Type} (new old : Option α) : Option α :=
  match new with
  | some v => some v
  | none => old

/-- Is an update's `current_value` both present (sent in the request) and
truthy, and different from the stored value? This is the condition under
which `update_property` tracks the change and records history. -/
def valueChanged (p : PropertyRec) (input : PropertyUpdate) : Bool :=
  qtruthy input.current_value && decide (input.current_value ≠ p.current_value)

/-- The merged document `merged = dict(property, **update_data)` of
`update_property`: fields present in the request overwrite the stored ones
(`update_data` drops `None` fields), absent fields retain their stored
value, and `last_updated` is bumped. -/
def update_merged (p : PropertyRec) (input : PropertyUpdate) (now : Nat) :
    PropertyRec :=
  { p with
    nickname := mergeOpt input.nickname p.nickname
    address := input.address.getD p.address
    suburb := mergeOpt input.suburb p.suburb
    state := mergeOpt input.state p.state
    postcode := mergeOpt input.postcode p.postcode
    property_type := input.property_type.getD p.property_type
    current_value := mergeOpt input.current_value p.current_value
    outstanding_loan := mergeOpt input.outstanding_loan p.outstanding_loan
    monthly_loan_repayment :=
      mergeOpt input.monthly_loan_repayment p.monthly_loan_repayment
    rent_amount := mergeOpt input.rent_amount p.rent_amount
    rent_frequency := input.rent_frequency.getD p.rent_frequency
    yearly_expenses := mergeOpt input.yearly_expenses p.yearly_expenses
    bedrooms := mergeOpt input.bedrooms p.bedrooms
    bathrooms := mergeOpt input.bathrooms p.bathrooms
    parking := mergeOpt input.parking p.parking
    last_updated := now }

/-- Embedding of `update_property` (server.py lines 395-435): merge via
`update_merged`; when the new value is truthy and differs from the stored
one, `previous_value` is set to the old value and, when the old value was
truthy and positive, the daily deltas are recomputed; financials are
recalculated on the merged document and always written back (including
`None` results); a history row is appended exactly when the value change
was tracked. -/
def update_property (p : PropertyRec) (input : PropertyUpdate) (now : Nat) :
    PropertyRec × Option HistoryEntry :=
  let old_value := p.current_value
  let new_value := input.current_value
  let changed := valueChanged p input
  let merged : PropertyRec := update_merged p input now
  let tracked : PropertyRec :=
    { merged with
      previous_value :=
        if changed then old_value else merged.previous_value
      daily_change :=
        if changed ∧ (qtruthy old_value ∧ 0 < orQ old_value) then
          some (orQ new_value - orQ old_value)
        else merged.daily_change
      daily_change_percent :=
        if changed ∧ (qtruthy old_value ∧ 0 < orQ old_value) then
          some (pyRound2
            ((orQ new_value - orQ old_value) / orQ old_value * 100))
        else merged.daily_change_percent }
  let financials := calculate_property_financials merged.finIn
  let result := tracked.withFin financials
  let hist : Option HistoryEntry :=
    if changed then
      some { property_id := p.id
             value := orQ new_value
             loan := if qtruthy input.outstanding_loan then
                 input.outstanding_loan
               else p.outstanding_loan
             net_value := financials.net_value
             recorded_at := now }
    else none
  (result, hist)

-- ===================== portfolio stats =====================

/-- Response of `GET /portfolio/stats`. -/
structure PortfolioStats where
  total_properties : Nat
  investment_count : Nat
  ppor_count : Nat
  total_property_value : ℚ
  total_outstanding_loans : ℚ
  total_net_value : ℚ
  total_annual_rental_income : ℚ
  total_annual_expenses : ℚ
  total_annual_loan_repayments : ℚ
  overall_yearly_cash_flow : ℚ
  overall_yearly_shortage : ℚ
  is_cash_flow_positive : Bool
deriving DecidableEq

/-- Embedding of `get_portfolio_stats` (server.py lines 463-506): value,
loan and net totals range over all records with missing fields treated via
Python `or 0`; rent, expense and repayment totals range over
investment-purpose records only. -/
def get_portfolio_stats (rs : List PropertyRec) : PortfolioStats :=
  let investment := rs.filter (fun p => p.property_type = "investment".data)
  let ppor := rs.filter (fun p => p.property_type = "ppor".data)
  let total_value := (rs.map (fun p => orQ p.current_value)).sum
  let total_loans := (rs.map (fun p => orQ p.outstanding_loan)).sum
  let total_net := (rs.map (fun p => orQ p.net_value)).sum
  let total_rent := (investment.map (fun p => orQ p.annual_rental_income)).sum
  let total_exp := (investment.map (fun p => orQ p.yearly_expenses)).sum
  let total_rep := (investment.map (fun p => orQ p.annual_loan_repayments)).sum
  let total_outgoing := total_rep + total_exp
  let cash_flow := total_rent - total_outgoing
  { total_properties := rs.length
    investment_count := investment.length
    ppor_count := ppor.length
    total_property_value := total_value
    total_outstanding_loans := total_loans
    total_net_value := total_net
    total_annual_rental_income := total_rent
    total_annual_expenses := total_exp
    total_annual_loan_repayments := total_rep
    overall_yearly_cash_flow := cash_flow
    overall_yearly_shortage := total_outgoing - total_rent
    is_cash_flow_positive := decide (0 ≤ cash_flow) }

-- ===================== get_properties =====================

/-- Case-insensitive substring containment, the effect of an `i`-option Mongo
regex filter for a metacharacter-free pattern. -/
def containsCI (hay pat : Str) : Bool :=
  let rec go : Str → Bool
    | [] => isPre (pyLower pat) []
    | h@(_ :: t) => isPre (pyLower pat) (pyLower h) || go t
  go hay

/-- The Mongo query built by `get_properties` (server.py lines 362-385) as a
predicate on records: an optional free-text search over address, nickname and
suburb, an optional suburb filter, and an optional exact purpose filter
(filter values equal to `all` are ignored). A regex filter on a missing
(`None`) field matches nothing. -/
def propertyQuery (search suburbF ptypeF : Option Str) (p : PropertyRec) :
    Bool :=
  (match search with
   | none => true
   | some s =>
     containsCI p.address s
       || (match p.nickname with | some n => containsCI n s | none => false)
       || (match p.suburb with | some n => containsCI n s | none => false))
  && (match suburbF with
      | none => true
      | some sf =>
        if sf = "all".data then true
        else match p.suburb with
          | some n => containsCI n sf
          | none => false)
  && (match ptypeF with
      | none => true
      | some tf =>
        if tf = "all".data then true
        else decide (p.property_type = tf))

/-- Embedding of `get_properties`: filter by the query, sort by creation
timestamp descending, and return the first 100 documents (`to_list(100)`). -/
def get_properties (db : List PropertyRec)
    (search suburbF ptypeF : Option Str) : List PropertyRec :=
  let matching := db.filter (propertyQuery search suburbF ptypeF)
  let sorted := matching.insertionSort (fun a b => b.created_at ≤ a.created_at)
  sorted.take 100

-- ===================== concrete sample inputs =====================

/-- Financial inputs of the specification's worked scenario: investment
property, value 1,000,000, loan 600,000, rent 500 weekly, repayment 3,000
monthly, expenses 5,000 yearly. -/
def finSample : FinIn :=
  { rent_amount := some 500
    rent_frequency := "weekly".data
    current_value := some 1000000
    outstanding_loan := some 600000
    monthly_loan_repayment := some 3000
    yearly_expenses := some 5000
    property_type := "investment".data }

/-- Financial inputs with a present but zero rent amount. -/
def finZeroRent : FinIn :=
  { rent_amount := some 0
    rent_frequency := "monthly".data
    current_value := some 1000000
    outstanding_loan := none
    monthly_loan_repayment := none
    yearly_expenses := none
    property_type := "investment".data }

-- ===================== C5 =====================

/-- C5, counterexample: with `rent_amount = 0` (present, not absent) the
derived `monthly_rent` is absent, because the source gates the computation on
Python truthiness (`if prop.get("rent_amount"):`), so the claimed
"absent if and only if rent_amount is absent" fails. -/
theorem claim_C5_counterexample :
    finZeroRent.rent_amount ≠ none ∧
    (calculate_property_financials finZeroRent).monthly_rent = none := by
  constructor
  · simp [finZeroRent]
  · norm_num [calculate_property_financials, finZeroRent, qtruthy]

/-- C5, amended: `monthly_rent` equals `rent_amount` for monthly frequency
and `rent_amount * 52 / 12` for weekly frequency whenever `rent_amount` is
present and nonzero, and is absent exactly when `rent_amount` is absent or
zero. -/
theorem claim_C5 (prop : FinIn) :
    ((calculate_property_financials prop).monthly_rent = none ↔
      (prop.rent_amount = none ∨ prop.rent_amount = some 0))
    ∧ (∀ x : ℚ, prop.rent_amount = some x → x ≠ 0 →
        (calculate_property_financials prop).monthly_rent =
          some (if prop.rent_frequency = "weekly".data then x * 52 / 12 else x)) := by
  rcases hra : prop.rent_amount with _ | x
  · constructor
    · simp [calculate_property_financials, qtruthy, hra]
    · intro x hx
      simp [hra] at hx
  · constructor
    · by_cases hx : x = 0
      · subst hx
        simp [calculate_property_financials, qtruthy, hra]
      · simp [calculate_property_financials, qtruthy, hra, hx]
        split <;> simp
    · intro y hy hynz
      obtain rfl : x = y := by injection hy
      have ht : qtruthy prop.rent_amount = true := by
        simp [qtruthy, hra, hynz]
      simp [calculate_property_financials, ht, orQ, hra]
      split <;> simp [qtruthy, hynz]

/-- C5, witness: the amended theorem applied to the worked scenario
(weekly rent of 500). -/
theorem claim_C5_witness :
    (calculate_property_financials finSample).monthly_rent = some (500 * 52 / 12) := by
  have h := (claim_C5 finSample).2 500 (by simp [finSample]) (by norm_num)
  simpa [finSample] using h

-- ===================== C6 =====================

/-- Characterization of the derived `monthly_rent`. -/
theorem fin_mr_eq (prop : FinIn) :
    (calculate_property_financials prop).monthly_rent =
      (if qtruthy prop.rent_amount then
        if prop.rent_frequency = "weekly".data then
          some (orQ prop.rent_amount * 52 / 12)
        else some (orQ prop.rent_amount)
      else none) := rfl

/-- Characterization of the derived `net_value`. -/
theorem fin_net_eq (prop : FinIn) :
    (calculate_property_financials prop).net_value =
      (match prop.current_value with
       | some v => some (v - orQ prop.outstanding_loan)
       | none => none) := rfl

/-- Characterization of the derived `annual_rental_income`. -/
theorem fin_ari_eq (prop : FinIn) :
    (calculate_property_financials prop).annual_rental_income =
      (if qtruthy (calculate_property_financials prop).monthly_rent then
        some (orQ (calculate_property_financials prop).monthly_rent * 12)
      else none) := rfl

/-- Characterization of the derived `annual_loan_repayments`. -/
theorem fin_alr_eq (prop : FinIn) :
    (calculate_property_financials prop).annual_loan_repayments =
      (if qtruthy prop.monthly_loan_repayment then
        some (orQ prop.monthly_loan_repayment * 12)
      else none) := rfl

/-- Characterization of the derived `yearly_cash_flow` in terms of the other
derived fields. -/
theorem fin_cash_eq (prop : FinIn) :
    (calculate_property_financials prop).yearly_cash_flow =
      (if prop.property_type = "investment".data ∧
          (calculate_property_financials prop).annual_rental_income ≠ none then
        some (orQ (calculate_property_financials prop).annual_rental_income -
          (orQ (calculate_property_financials prop).annual_loan_repayments +
            orQ prop.yearly_expenses))
      else none) := rfl

/-- Characterization of the derived `yearly_shortage` in terms of the other
derived fields. -/
theorem fin_shortage_eq (prop : FinIn) :
    (calculate_property_financials prop).yearly_shortage =
      (if prop.property_type = "investment".data ∧
          (calculate_property_financials prop).annual_rental_income ≠ none then
        some ((orQ (calculate_property_financials prop).annual_loan_repayments +
            orQ prop.yearly_expenses) -
          orQ (calculate_property_financials prop).annual_rental_income)
      else none) := rfl

/-- C6: `yearly_cash_flow` and `yearly_shortage` are defined exactly when
the purpose is `investment` (the source spelling of the investment purpose)
and the derived annual rental income is present; whenever both are defined,
`yearly_shortage = -yearly_cash_flow`; for purpose `ppor` (the source
spelling of primary-residence) both are always absent. -/
theorem claim_C6 (prop : FinIn) :
    ((calculate_property_financials prop).yearly_cash_flow ≠ none ↔
      (prop.property_type = "investment".data ∧
        (calculate_property_financials prop).annual_rental_income ≠ none))
    ∧ ((calculate_property_financials prop).yearly_shortage ≠ none ↔
      (prop.property_type = "investment".data ∧
        (calculate_property_financials prop).annual_rental_income ≠ none))
    ∧ (∀ c s : ℚ,
        (calculate_property_financials prop).yearly_cash_flow = some c →
        (calculate_property_financials prop).yearly_shortage = some s →
        s = -c)
    ∧ (prop.property_type = "ppor".data →
        (calculate_property_financials prop).yearly_cash_flow = none ∧
        (calculate_property_financials prop).yearly_shortage = none) := by
  have hcf := fin_cash_eq prop
  have hsh := fin_shortage_eq prop
  by_cases hc : prop.property_type = "investment".data ∧
      (calculate_property_financials prop).annual_rental_income ≠ none
  · rw [if_pos hc] at hcf hsh
    refine ⟨by simp [hcf, hc], by simp [hsh, hc], ?_, ?_⟩
    · intro c s h1 h2
      rw [hcf] at h1
      rw [hsh] at h2
      obtain rfl : _ = c := by injection h1
      obtain rfl : _ = s := by injection h2
      ring
    · intro hp
      exfalso
      have h1 := hc.1
      rw [hp] at h1
      exact absurd h1 (by decide)
  · rw [if_neg hc] at hcf hsh
    refine ⟨by simp [hcf, hc], by simp [hsh, hc], ?_, ?_⟩
    · intro c s h1
      rw [hcf] at h1
      exact absurd h1 (by simp)
    · intro _
      exact ⟨hcf, hsh⟩

/-- The derived monthly rent of the worked scenario. -/
theorem fin_sample_mr :
    (calculate_property_financials finSample).monthly_rent
      = some (6500 / 3) := by
  rw [fin_mr_eq]
  norm_num [finSample, qtruthy, orQ]

/-- The derived annual rental income of the worked scenario. -/
theorem fin_sample_ari :
    (calculate_property_financials finSample).annual_rental_income
      = some 26000 := by
  rw [fin_ari_eq, fin_sample_mr]
  norm_num [qtruthy, orQ]

/-- The derived annual loan repayments of the worked scenario. -/
theorem fin_sample_alr :
    (calculate_property_financials finSample).annual_loan_repayments
      = some 36000 := by
  rw [fin_alr_eq]
  norm_num [finSample, qtruthy, orQ]

/-- The cash-flow gate condition holds on the worked scenario. -/
theorem fin_sample_cond : finSample.property_type = "investment".data ∧
    (calculate_property_financials finSample).annual_rental_income ≠ none := by
  refine ⟨rfl, ?_⟩
  rw [fin_sample_ari]
  simp

/-- The derived yearly cash flow of the worked scenario. -/
theorem fin_sample_cash :
    (calculate_property_financials finSample).yearly_cash_flow
      = some (-15000) := by
  rw [fin_cash_eq, if_pos fin_sample_cond, fin_sample_ari, fin_sample_alr]
  norm_num [finSample, orQ]

/-- The derived yearly shortage of the worked scenario. -/
theorem fin_sample_shortage :
    (calculate_property_financials finSample).yearly_shortage
      = some 15000 := by
  rw [fin_shortage_eq, if_pos fin_sample_cond, fin_sample_ari, fin_sample_alr]
  norm_num [finSample, orQ]

/-- C6, witness: on the worked scenario the cash flow is -15,000, the
shortage 15,000, and the theorem instance gives 15000 = -(-15000). -/
theorem claim_C6_witness :
    (calculate_property_financials finSample).yearly_cash_flow = some (-15000) ∧
    (calculate_property_financials finSample).yearly_shortage = some 15000 ∧
    (15000 : ℚ) = -(-15000) :=
  ⟨fin_sample_cash, fin_sample_shortage,
    (claim_C6 finSample).2.2.1 (-15000) 15000 fin_sample_cash
      fin_sample_shortage⟩

-- ===================== C4 =====================

/-- Creation request with a loan but no value. -/
def createLoanOnly : PropertyCreate :=
  { url := none
    nickname := none
    address := none
    suburb := none
    state := none
    postcode := none
    property_type := "investment".data
    current_value := none
    outstanding_loan := some 500000
    monthly_loan_repayment := none
    rent_amount := none
    rent_frequency := "monthly".data
    yearly_expenses := none }

/-- Stored record created from `createLoanOnly`. -/
def recLoanOnly : PropertyRec := (create_property createLoanOnly ("p1".data) 0).1

/-- Creation request mirroring the specification's worked scenario. -/
def createSample : PropertyCreate :=
  { url := none
    nickname := none
    address := none
    suburb := none
    state := none
    postcode := none
    property_type := "investment".data
    current_value := some 1000000
    outstanding_loan := some 600000
    monthly_loan_repayment := some 3000
    rent_amount := some 500
    rent_frequency := "weekly".data
    yearly_expenses := some 5000 }

/-- Stored record created from `createSample`. -/
def recSample : PropertyRec := (create_property createSample ("p2".data) 0).1

/-- The stored `net_value` of a record is consistent with its stored value
and loan (true of every record the routes write, since financials are
recomputed on every insert and update). -/
def netConsistent (p : PropertyRec) : Prop :=
  p.net_value =
    match p.current_value with
    | none => none
    | some v => some (v - orQ p.outstanding_loan)

/-- Projection of the stats net total. -/
theorem stats_net_eq (rs : List PropertyRec) :
    (get_portfolio_stats rs).total_net_value =
      (rs.map (fun p => orQ p.net_value)).sum := rfl

/-- Projection of the stats value total. -/
theorem stats_value_eq (rs : List PropertyRec) :
    (get_portfolio_stats rs).total_property_value =
      (rs.map (fun p => orQ p.current_value)).sum := rfl

/-- Projection of the stats loan total. -/
theorem stats_loans_eq (rs : List PropertyRec) :
    (get_portfolio_stats rs).total_outstanding_loans =
      (rs.map (fun p => orQ p.outstanding_loan)).sum := rfl

/-- Sum form of the portfolio net identity. -/
theorem net_sum_eq (rs : List PropertyRec)
    (h : ∀ p ∈ rs, netConsistent p ∧
      (p.current_value ≠ none ∨ orQ p.outstanding_loan = 0)) :
    ((rs.map (fun p => orQ p.net_value)).sum : ℚ) =
      (rs.map (fun p => orQ p.current_value)).sum -
        (rs.map (fun p => orQ p.outstanding_loan)).sum := by
  induction rs with
  | nil => simp
  | cons p t ih =>
    obtain ⟨⟨hnet, hdis⟩, hrest⟩ :
        (netConsistent p ∧ (p.current_value ≠ none ∨ orQ p.outstanding_loan = 0))
          ∧ ∀ q ∈ t, netConsistent q ∧
            (q.current_value ≠ none ∨ orQ q.outstanding_loan = 0) :=
      ⟨h p (List.mem_cons_self p t), fun q hq => h q (List.mem_cons_of_mem p hq)⟩
    have hhead : orQ p.net_value =
        orQ p.current_value - orQ p.outstanding_loan := by
      rcases hcv : p.current_value with _ | v
      · simp only [netConsistent, hcv] at hnet
        rcases hdis with hne | hz
        · exact absurd hcv hne
        · simp only [orQ] at hz
          simp [hnet, orQ, hz]
      · simp only [netConsistent, hcv] at hnet
        simp [hnet, orQ]
    simp only [List.map_cons, List.sum_cons, hhead, ih hrest]
    ring

/-- C4, counterexample: a stored record created with an outstanding loan of
500,000 but no known value contributes its loan to
`total_outstanding_loans` but nothing to `total_net_value` (its `net_value`
is absent), so the claimed identity fails. -/
theorem claim_C4_counterexample :
    (get_portfolio_stats [recLoanOnly]).total_net_value = 0 ∧
    (get_portfolio_stats [recLoanOnly]).total_property_value -
      (get_portfolio_stats [recLoanOnly]).total_outstanding_loans = -500000 ∧
    ((0 : ℚ) ≠ -500000) := by
  refine ⟨?_, ?_, by norm_num⟩
  · rw [stats_net_eq]
    norm_num [recLoanOnly, create_property, create_merged, create_base,
      createLoanOnly, PropertyRec.withFin, PropertyRec.finIn,
      calculate_property_financials, qtruthy, orQ]
  · rw [stats_value_eq, stats_loans_eq]
    norm_num [recLoanOnly, create_property, create_merged, create_base,
      createLoanOnly, PropertyRec.withFin, PropertyRec.finIn,
      calculate_property_financials, qtruthy, orQ]

/-- C4, amended: the identity
`total_net_value = total_property_value - total_outstanding_loans` holds for
every set of stored records, for any mix of purposes, provided each record's
stored `net_value` is consistent with its stored value and loan and no
record carries a (nonzero) loan without a known current value; a loan-only
record breaks it, as the counterexample shows. -/
theorem claim_C4 (rs : List PropertyRec)
    (h : ∀ p ∈ rs, netConsistent p ∧
      (p.current_value ≠ none ∨ orQ p.outstanding_loan = 0)) :
    (get_portfolio_stats rs).total_net_value =
      (get_portfolio_stats rs).total_property_value -
        (get_portfolio_stats rs).total_outstanding_loans := by
  rw [stats_net_eq, stats_value_eq, stats_loans_eq]
  exact net_sum_eq rs h

/-- C4, witness: the amended identity holds on the one-record portfolio
created from the worked scenario. -/
theorem claim_C4_witness :
    (get_portfolio_stats [recSample]).total_net_value =
      (get_portfolio_stats [recSample]).total_property_value -
        (get_portfolio_stats [recSample]).total_outstanding_loans := by
  apply claim_C4
  intro p hp
  simp only [List.mem_singleton] at hp
  subst hp
  constructor
  · simp [netConsistent, recSample, create_property, create_merged,
      create_base, createSample, PropertyRec.withFin, PropertyRec.finIn,
      calculate_property_financials, qtruthy, orQ]
  · left
    simp [recSample, create_property, create_merged, create_base,
      createSample, PropertyRec.withFin]

-- ===================== helper lemmas on update and create =====================

/-- Truthiness of an optional rational, unfolded. -/
theorem qtruthy_iff (o : Option ℚ) :
    qtruthy o = true ↔ ∃ x : ℚ, o = some x ∧ x ≠ 0 := by
  cases o <;> simp [qtruthy]

/-- The history row of an update: present exactly under `valueChanged`. -/
theorem upd_hist_eq (p : PropertyRec) (u : PropertyUpdate) (now : Nat) :
    (update_property p u now).2 =
      (if valueChanged p u then
        some { property_id := p.id
               value := orQ u.current_value
               loan := if qtruthy u.outstanding_loan then u.outstanding_loan
                 else p.outstanding_loan
               net_value := (calculate_property_financials
                 (update_merged p u now).finIn).net_value
               recorded_at := now }
      else none) := by
  by_cases h : valueChanged p u
  · simp only [update_property, h, if_true]
  · simp only [update_property, h, if_false]

/-- The `previous_value` written by an update. -/
theorem upd_prev_eq (p : PropertyRec) (u : PropertyUpdate) (now : Nat) :
    (update_property p u now).1.previous_value =
      (if valueChanged p u then p.current_value else p.previous_value) := by
  simp only [update_property, PropertyRec.withFin, update_merged]

/-- The `daily_change` written by an update. -/
theorem upd_daily_eq (p : PropertyRec) (u : PropertyUpdate) (now : Nat) :
    (update_property p u now).1.daily_change =
      (if valueChanged p u ∧
          (qtruthy p.current_value ∧ 0 < orQ p.current_value) then
        some (orQ u.current_value - orQ p.current_value)
      else p.daily_change) := by
  simp only [update_property, PropertyRec.withFin, update_merged]

/-- The `daily_change_percent` written by an update. -/
theorem upd_pct_eq (p : PropertyRec) (u : PropertyUpdate) (now : Nat) :
    (update_property p u now).1.daily_change_percent =
      (if valueChanged p u ∧
          (qtruthy p.current_value ∧ 0 < orQ p.current_value) then
        some (pyRound2
          ((orQ u.current_value - orQ p.current_value) / orQ p.current_value * 100))
      else p.daily_change_percent) := by
  simp only [update_property, PropertyRec.withFin, update_merged]

/-- The history row of a creation: present exactly when the supplied value is
truthy. -/
theorem create_hist_eq (c : PropertyCreate) (pid : Str) (now : Nat) :
    (create_property c pid now).2 =
      (if qtruthy c.current_value then
        some { property_id := pid
               value := orQ c.current_value
               loan := c.outstanding_loan
               net_value := (calculate_property_financials
                 (create_property c pid now).1.finIn).net_value
               recorded_at := now }
      else none) := by
  by_cases h : qtruthy c.current_value
  · simp only [create_property, PropertyRec.withFin, PropertyRec.finIn, h,
      if_true]
  · simp only [create_property, PropertyRec.withFin, PropertyRec.finIn, h,
      if_false]

/-- A created record's stored `current_value` is the supplied one. -/
theorem create_cv_eq (c : PropertyCreate) (pid : Str) (now : Nat) :
    (create_property c pid now).1.current_value = c.current_value := by
  simp only [create_property, PropertyRec.withFin]
  cases hu : c.url <;> simp [create_merged, create_base, hu]

/-- A created record's `previous_value` is absent. -/
theorem create_prev_eq (c : PropertyCreate) (pid : Str) (now : Nat) :
    (create_property c pid now).1.previous_value = none := by
  simp only [create_property, PropertyRec.withFin]
  cases hu : c.url <;> simp [create_merged, create_base, hu]

/-- A created record's status is always `active`. -/
theorem create_status_eq (c : PropertyCreate) (pid : Str) (now : Nat) :
    (create_property c pid now).1.status = "active".data := by
  simp only [create_property, PropertyRec.withFin]
  cases hu : c.url <;> simp [create_merged, create_base, hu]

/-- An update never touches the stored status. -/
theorem upd_status_eq (p : PropertyRec) (u : PropertyUpdate) (now : Nat) :
    (update_property p u now).1.status = p.status := by
  simp only [update_property, PropertyRec.withFin, update_merged]

-- ===================== C2 =====================

/-- Update request that only sets the value to zero. -/
def updZero : PropertyUpdate :=
  { nickname := none, address := none, suburb := none, state := none
    postcode := none, property_type := none, current_value := some 0
    outstanding_loan := none, monthly_loan_repayment := none
    rent_amount := none, rent_frequency := none, yearly_expenses := none
    bedrooms := none, bathrooms := none, parking := none }

/-- C2, counterexample: updating the stored value 1,000,000 with the value 0
is an incoming `current_value` that strictly differs from the stored one,
yet no history entry is appended, because the source gates history on Python
truthiness of the new value (`if new_value and ...`). -/
theorem claim_C2_counterexample :
    recSample.current_value = some 1000000 ∧
    updZero.current_value = some 0 ∧
    updZero.current_value ≠ recSample.current_value ∧
    (update_property recSample updZero 1).2 = none := by
  have hcv : recSample.current_value = some 1000000 := by
    rw [recSample, create_cv_eq]
    rfl
  refine ⟨hcv, rfl, ?_, ?_⟩
  · rw [hcv]
    simp [updZero]
  · rw [upd_hist_eq]
    have : valueChanged recSample updZero = false := by
      simp [valueChanged, updZero, qtruthy]
    simp [this]

/-- C2, amended: a history entry is appended on update exactly when the
incoming `current_value` is present, nonzero, and differs from the stored
value; an incoming value equal to the stored one appends nothing and leaves
`previous_value` unchanged, whatever other fields change; more generally,
whenever no history entry is appended — in particular for a zero incoming
value, even one differing from the stored value — `previous_value` is left
unchanged; at creation a history entry is recorded exactly when a nonzero
`current_value` is supplied. -/
theorem claim_C2 (p : PropertyRec) (u : PropertyUpdate) (now : Nat)
    (c : PropertyCreate) (pid : Str) (now2 : Nat) :
    ((update_property p u now).2 ≠ none ↔
      ∃ x : ℚ, u.current_value = some x ∧ x ≠ 0 ∧
        u.current_value ≠ p.current_value)
    ∧ (u.current_value = p.current_value →
        (update_property p u now).2 = none ∧
        (update_property p u now).1.previous_value = p.previous_value)
    ∧ ((update_property p u now).2 = none →
        (update_property p u now).1.previous_value = p.previous_value)
    ∧ ((create_property c pid now2).2 ≠ none ↔
        ∃ x : ℚ, c.current_value = some x ∧ x ≠ 0) := by
  have hvc : valueChanged p u = true ↔
      ∃ x : ℚ, u.current_value = some x ∧ x ≠ 0 ∧
        u.current_value ≠ p.current_value := by
    rw [valueChanged, Bool.and_eq_true, qtruthy_iff, decide_eq_true_eq]
    constructor
    · rintro ⟨⟨x, hx, hnz⟩, hne⟩
      exact ⟨x, hx, hnz, hne⟩
    · rintro ⟨x, hx, hnz, hne⟩
      exact ⟨⟨x, hx, hnz⟩, hne⟩
  refine ⟨?_, ?_, ?_, ?_⟩
  · rw [upd_hist_eq]
    by_cases h : valueChanged p u
    · simp only [h, if_true]
      simp only [hvc] at h
      simpa using h
    · simp only [h, if_false]
      simp only [← hvc]
      simpa using h
  · intro heq
    have h : valueChanged p u = false := by
      simp [valueChanged, heq]
    rw [upd_hist_eq, upd_prev_eq, h]
    simp
  · intro hn
    have h : valueChanged p u = false := by
      by_contra hb
      rw [Bool.not_eq_false] at hb
      rw [upd_hist_eq, hb] at hn
      simp at hn
    rw [upd_prev_eq, h]
    simp
  · rw [create_hist_eq]
    by_cases h : qtruthy c.current_value
    · simp only [h, if_true]
      have := (qtruthy_iff c.current_value).mp h
      simpa using this
    · simp only [h, if_false]
      rw [Bool.not_eq_true] at h
      constructor
      · intro hne
        exact absurd rfl hne
      · rintro ⟨x, hx, hnz⟩
        have : qtruthy c.current_value = true := by
          rw [qtruthy_iff]
          exact ⟨x, hx, hnz⟩
        rw [this] at h
        cases h

/-- Update request raising the value to 1,050,000. -/
def updRaise : PropertyUpdate :=
  { nickname := none, address := none, suburb := none, state := none
    postcode := none, property_type := none, current_value := some 1050000
    outstanding_loan := none, monthly_loan_repayment := none
    rent_amount := none, rent_frequency := none, yearly_expenses := none
    bedrooms := none, bathrooms := none, parking := none }

/-- Update request re-sending the already stored value 1,000,000 while also
changing the nickname. -/
def updSame : PropertyUpdate :=
  { nickname := some ("Renamed".data), address := none, suburb := none
    state := none, postcode := none, property_type := none
    current_value := some 1000000, outstanding_loan := none
    monthly_loan_repayment := none, rent_amount := none
    rent_frequency := none, yearly_expenses := none
    bedrooms := none, bathrooms := none, parking := none }

/-- The stored value of the worked-scenario record. -/
theorem recSample_cv : recSample.current_value = some 1000000 := by
  rw [recSample, create_cv_eq]
  rfl

/-- C2, witness: raising the stored value 1,000,000 to 1,050,000 appends a
history entry; re-sending 1,000,000 (while renaming) appends nothing and
leaves `previous_value` unchanged; sending the differing but zero value 0
also appends nothing and leaves `previous_value` unchanged; creating with
value 1,000,000 records an initial entry. -/
theorem claim_C2_witness :
    (update_property recSample updRaise 1).2 ≠ none ∧
    (update_property recSample updSame 1).2 = none ∧
    (update_property recSample updSame 1).1.previous_value
      = recSample.previous_value ∧
    (update_property recSample updZero 1).2 = none ∧
    (update_property recSample updZero 1).1.previous_value
      = recSample.previous_value ∧
    (create_property createSample ("p2".data) 0).2 ≠ none := by
  have h1 := (claim_C2 recSample updRaise 1 createSample ("p2".data) 0).1
  have h2 := (claim_C2 recSample updSame 1 createSample ("p2".data) 0).2.1
  have h3 := (claim_C2 recSample updZero 1 createSample ("p2".data) 0).2.2.1
  have h4 := (claim_C2 recSample updRaise 1 createSample ("p2".data) 0).2.2.2
  have hz : (update_property recSample updZero 1).2 = none := by
    rw [upd_hist_eq]
    have hvz : valueChanged recSample updZero = false := by
      simp [valueChanged, updZero, qtruthy]
    simp [hvz]
  refine ⟨?_, ?_, ?_, hz, h3 hz, ?_⟩
  · refine h1.mpr ⟨1050000, rfl, by norm_num, ?_⟩
    rw [recSample_cv]
    simp [updRaise]
  · exact (h2 (by rw [recSample_cv]; rfl)).1
  · exact (h2 (by rw [recSample_cv]; rfl)).2
  · exact h4.mpr ⟨1000000, rfl, by norm_num⟩

-- ===================== C8 =====================

/-- C8: whenever an update records a value change (a history row is
appended), `previous_value` is set to the prior `current_value`; if the
prior value was present and positive, `daily_change = new - old` and
`daily_change_percent = round(100 * (new - old) / old, 2)`; if the prior
value (and hence, for any reachable record, the prior deltas) was absent,
the deltas stay absent. -/
theorem claim_C8 (p : PropertyRec) (u : PropertyUpdate) (now : Nat) (x : ℚ)
    (hrec : (update_property p u now).2 ≠ none)
    (hx : u.current_value = some x) :
    (update_property p u now).1.previous_value = p.current_value
    ∧ (∀ y : ℚ, p.current_value = some y → 0 < y →
        (update_property p u now).1.daily_change = some (x - y) ∧
        (update_property p u now).1.daily_change_percent =
          some (pyRound2 (100 * (x - y) / y)))
    ∧ (p.current_value = none → p.daily_change = none →
        p.daily_change_percent = none →
        (update_property p u now).1.daily_change = none ∧
        (update_property p u now).1.daily_change_percent = none) := by
  have hvc : valueChanged p u = true := by
    by_contra hco
    rw [upd_hist_eq] at hrec
    simp [hco] at hrec
  refine ⟨?_, ?_, ?_⟩
  · rw [upd_prev_eq, hvc]
    simp
  · intro y hy hypos
    have hcond : valueChanged p u = true ∧
        (qtruthy p.current_value = true ∧ 0 < orQ p.current_value) := by
      refine ⟨hvc, ?_, ?_⟩
      · simp [qtruthy, hy]
        exact ne_of_gt hypos
      · simp [orQ, hy, hypos]
    constructor
    · rw [upd_daily_eq, if_pos hcond, hx, hy]
      simp [orQ]
    · rw [upd_pct_eq, if_pos hcond, hx, hy]
      simp only [orQ, Option.getD_some]
      congr 1
      congr 1
      ring
  · intro hy hdc hpc
    have hcond : ¬ (valueChanged p u = true ∧
        (qtruthy p.current_value = true ∧ 0 < orQ p.current_value)) := by
      rintro ⟨-, hq, -⟩
      rw [hy] at hq
      simp [qtruthy] at hq
    constructor
    · rw [upd_daily_eq, if_neg hcond]
      exact hdc
    · rw [upd_pct_eq, if_neg hcond]
      exact hpc

/-- C8, witness: the specification's scenario. Updating the stored value
1,000,000 to 1,050,000 gives `previous_value = 1000000`,
`daily_change = 50000` and `daily_change_percent = 5.00`. -/
theorem claim_C8_witness :
    (update_property recSample updRaise 1).1.previous_value = some 1000000 ∧
    (update_property recSample updRaise 1).1.daily_change = some 50000 ∧
    (update_property recSample updRaise 1).1.daily_change_percent
      = some 5 := by
  have hvc : valueChanged recSample updRaise = true := by
    rw [valueChanged, recSample_cv]
    simp only [updRaise, qtruthy]
    norm_num
  have hrec : (update_property recSample updRaise 1).2 ≠ none := by
    rw [upd_hist_eq, hvc]
    simp
  have h := claim_C8 recSample updRaise 1 1050000 hrec rfl
  refine ⟨?_, ?_, ?_⟩
  · rw [h.1, recSample_cv]
  · rw [(h.2.1 1000000 recSample_cv (by norm_num)).1]
    norm_num
  · rw [(h.2.1 1000000 recSample_cv (by norm_num)).2]
    norm_num [pyRound2, roundHalfEven]

-- ===================== C9 =====================

/-- The derived `yearly_cash_flow` a creation stores. -/
theorem create_cash_eq (c : PropertyCreate) (pid : Str) (now : Nat) :
    (create_property c pid now).1.yearly_cash_flow =
      (calculate_property_financials
        (create_merged c pid now).finIn).yearly_cash_flow := by
  simp only [create_property, PropertyRec.withFin]

/-- The derived `yearly_cash_flow` an update stores. -/
theorem upd_cash_eq (p : PropertyRec) (u : PropertyUpdate) (now : Nat) :
    (update_property p u now).1.yearly_cash_flow =
      (calculate_property_financials
        (update_merged p u now).finIn).yearly_cash_flow := by
  simp only [update_property, PropertyRec.withFin]

/-- Update request that only switches the purpose to `ppor`. -/
def updPpor : PropertyUpdate :=
  { nickname := none, address := none, suburb := none, state := none
    postcode := none, property_type := some ("ppor".data)
    current_value := none, outstanding_loan := none
    monthly_loan_repayment := none, rent_amount := none
    rent_frequency := none, yearly_expenses := none
    bedrooms := none, bathrooms := none, parking := none }

/-- The worked-scenario record stores the same financial inputs as
`finSample`. -/
theorem recSample_fin :
    (create_merged createSample ("p2".data) 0).finIn = finSample := rfl

/-- C9, counterexample: updating only the purpose (to `ppor`) nulls the
stored derived field `yearly_cash_flow`, a field absent from the incoming
data, because every update recomputes and rewrites the whole derived set
(including `None` results). -/
theorem claim_C9_counterexample :
    recSample.yearly_cash_flow = some (-15000) ∧
    (update_property recSample updPpor 1).1.yearly_cash_flow = none := by
  constructor
  · rw [recSample, create_cash_eq, recSample_fin]
    exact fin_sample_cash
  · rw [upd_cash_eq, fin_cash_eq, if_neg]
    rintro ⟨h1, -⟩
    have hpt : (update_merged recSample updPpor 1).finIn.property_type
        = "ppor".data := by
      simp [update_merged, PropertyRec.finIn, updPpor]
    rw [hpt] at h1
    exact absurd h1 (by decide)

/-- C9, amended: for each directly updatable (raw) field, a field present in
the incoming data overwrites the stored one and a field absent from the
incoming data retains its stored value (in particular no raw field is ever
set to null by a partial update); the identity, source, image and lifecycle
fields are always retained; the derived financial fields, by contrast, are
recomputed from the merged record on every update (see the counterexample
for one being nulled). -/
theorem claim_C9 (p : PropertyRec) (u : PropertyUpdate) (now : Nat) :
    ((∀ v, u.nickname = some v →
        (update_property p u now).1.nickname = some v)
      ∧ (u.nickname = none → (update_property p u now).1.nickname = p.nickname))
    ∧ ((∀ v, u.address = some v → (update_property p u now).1.address = v)
      ∧ (u.address = none → (update_property p u now).1.address = p.address))
    ∧ ((∀ v, u.suburb = some v → (update_property p u now).1.suburb = some v)
      ∧ (u.suburb = none → (update_property p u now).1.suburb = p.suburb))
    ∧ ((∀ v, u.state = some v → (update_property p u now).1.state = some v)
      ∧ (u.state = none → (update_property p u now).1.state = p.state))
    ∧ ((∀ v, u.postcode = some v →
        (update_property p u now).1.postcode = some v)
      ∧ (u.postcode = none → (update_property p u now).1.postcode = p.postcode))
    ∧ ((∀ v, u.property_type = some v →
        (update_property p u now).1.property_type = v)
      ∧ (u.property_type = none →
        (update_property p u now).1.property_type = p.property_type))
    ∧ ((∀ v, u.current_value = some v →
        (update_property p u now).1.current_value = some v)
      ∧ (u.current_value = none →
        (update_property p u now).1.current_value = p.current_value))
    ∧ ((∀ v, u.outstanding_loan = some v →
        (update_property p u now).1.outstanding_loan = some v)
      ∧ (u.outstanding_loan = none →
        (update_property p u now).1.outstanding_loan = p.outstanding_loan))
    ∧ ((∀ v, u.monthly_loan_repayment = some v →
        (update_property p u now).1.monthly_loan_repayment = some v)
      ∧ (u.monthly_loan_repayment = none →
        (update_property p u now).1.monthly_loan_repayment
          = p.monthly_loan_repayment))
    ∧ ((∀ v, u.rent_amount = some v →
        (update_property p u now).1.rent_amount = some v)
      ∧ (u.rent_amount = none →
        (update_property p u now).1.rent_amount = p.rent_amount))
    ∧ ((∀ v, u.rent_frequency = some v →
        (update_property p u now).1.rent_frequency = v)
      ∧ (u.rent_frequency = none →
        (update_property p u now).1.rent_frequency = p.rent_frequency))
    ∧ ((∀ v, u.yearly_expenses = some v →
        (update_property p u now).1.yearly_expenses = some v)
      ∧ (u.yearly_expenses = none →
        (update_property p u now).1.yearly_expenses = p.yearly_expenses))
    ∧ ((∀ v, u.bedrooms = some v →
        (update_property p u now).1.bedrooms = some v)
      ∧ (u.bedrooms = none → (update_property p u now).1.bedrooms = p.bedrooms))
    ∧ ((∀ v, u.bathrooms = some v →
        (update_property p u now).1.bathrooms = some v)
      ∧ (u.bathrooms = none →
        (update_property p u now).1.bathrooms = p.bathrooms))
    ∧ ((∀ v, u.parking = some v → (update_property p u now).1.parking = some v)
      ∧ (u.parking = none → (update_property p u now).1.parking = p.parking))
    ∧ ((update_property p u now).1.id = p.id
      ∧ (update_property p u now).1.url = p.url
      ∧ (update_property p u now).1.image_url = p.image_url
      ∧ (update_property p u now).1.status = p.status
      ∧ (update_property p u now).1.created_at = p.created_at) := by
  simp only [update_property, PropertyRec.withFin, update_merged]
  exact ⟨⟨fun v hv => by simp [mergeOpt, hv], fun hv => by simp [mergeOpt, hv]⟩,
    ⟨fun v hv => by simp [hv], fun hv => by simp [hv]⟩,
    ⟨fun v hv => by simp [mergeOpt, hv], fun hv => by simp [mergeOpt, hv]⟩,
    ⟨fun v hv => by simp [mergeOpt, hv], fun hv => by simp [mergeOpt, hv]⟩,
    ⟨fun v hv => by simp [mergeOpt, hv], fun hv => by simp [mergeOpt, hv]⟩,
    ⟨fun v hv => by simp [hv], fun hv => by simp [hv]⟩,
    ⟨fun v hv => by simp [mergeOpt, hv], fun hv => by simp [mergeOpt, hv]⟩,
    ⟨fun v hv => by simp [mergeOpt, hv], fun hv => by simp [mergeOpt, hv]⟩,
    ⟨fun v hv => by simp [mergeOpt, hv], fun hv => by simp [mergeOpt, hv]⟩,
    ⟨fun v hv => by simp [mergeOpt, hv], fun hv => by simp [mergeOpt, hv]⟩,
    ⟨fun v hv => by simp [hv], fun hv => by simp [hv]⟩,
    ⟨fun v hv => by simp [mergeOpt, hv], fun hv => by simp [mergeOpt, hv]⟩,
    ⟨fun v hv => by simp [mergeOpt, hv], fun hv => by simp [mergeOpt, hv]⟩,
    ⟨fun v hv => by simp [mergeOpt, hv], fun hv => by simp [mergeOpt, hv]⟩,
    ⟨fun v hv => by simp [mergeOpt, hv], fun hv => by simp [mergeOpt, hv]⟩,
    trivial, trivial, trivial, trivial, trivial⟩

/-- C9, witness: on the concrete rename update, the nickname present in the
request overwrites the stored one, while the absent rent amount is
retained. -/
theorem claim_C9_witness :
    (update_property recSample updSame 1).1.nickname = some ("Renamed".data) ∧
    (update_property recSample updSame 1).1.rent_amount
      = recSample.rent_amount := by
  have h := claim_C9 recSample updSame 1
  exact ⟨h.1.1 ("Renamed".data) rfl, (h.2.2.2.2.2.2.2.2.2.1).2 rfl⟩

-- ===================== C1 and C3 =====================

/-- A concrete structured listing URL. -/
def url0 : Str :=
  "https://www.property.com.au/nsw/sydney-2000/george-st/123-pid-11111111/".data

/-- C1, counterexample: a transport failure (the fetch raising, e.g. a
timeout) produces exactly the same harvest result as a benign non-200
response — the URL-derived floor data with no error marker — and no
operation ever stores a status other than `active`: creation writes
`active` and updates keep the stored status. The claimed transition to
`error` does not exist in the code. -/
theorem claim_C1_counterexample :
    scrape_property_data url0 .transportError
      = scrape_property_data url0 (.response 429 none none []) ∧
    recSample.status = "active".data ∧
    (update_property recSample updRaise 1).1.status = "active".data ∧
    "active".data ≠ "error".data := by
  refine ⟨rfl, ?_, ?_, by decide⟩
  · rw [recSample, create_status_eq]
  · rw [upd_status_eq, recSample, create_status_eq]

/-- C1, amended: a transport-level failure during the outbound fetch is
swallowed by the harvester's exception handler: the harvest returns the
URL-derived floor data, exactly as for a non-200 response, with no error
indication; no record-level transition to an `error` status exists —
creation always stores status `active` and an update never changes the
stored status. -/
theorem claim_C1 (url : Str) (st : Nat) (t i : Option Str) (b : Str)
    (c : PropertyCreate) (pid : Str) (now : Nat)
    (p : PropertyRec) (u : PropertyUpdate) (now2 : Nat) :
    scrape_property_data url .transportError = scrapeFloor url
    ∧ (st ≠ 200 →
        scrape_property_data url (.response st t i b) = scrapeFloor url)
    ∧ (create_property c pid now).1.status = "active".data
    ∧ (update_property p u now2).1.status = p.status := by
  refine ⟨rfl, ?_, create_status_eq c pid now, upd_status_eq p u now2⟩
  intro hst
  simp [scrape_property_data, hst]

/-- C1, witness: the amended theorem at a rate-limited (429) response and at
the worked-scenario creation. -/
theorem claim_C1_witness :
    scrape_property_data url0 (.response 429 none none []) = scrapeFloor url0 ∧
    (create_property createSample ("p2".data) 0).1.status = "active".data := by
  have h := claim_C1 url0 429 none none [] createSample ("p2".data) 0
    recSample updSame 1
  exact ⟨h.2.1 (by norm_num), h.2.2.1⟩

/-- C3, counterexample: a successful (HTTP 200) fetch whose page text
contains the currency token `$1,250,000` (well over 100,000 units) still
yields no extracted value: the harvester never reads the body text for
monetary patterns, so `current_value` stays absent. -/
theorem claim_C3_counterexample :
    (scrape_property_data url0
      (.response 200 none none ("Estimated value: $1,250,000".data))).current_value
      = none := rfl

/-- C3, amended: the harvester never extracts a monetary value — on every
fetch outcome `current_value` stays absent; on a 200 response it improves
the floor only by taking the display address from the `og:title` metadata
(first `|`-segment, stripped, when non-empty) and the `og:image` URL, and a
200 response with no usable metadata returns the floor data unchanged. -/
theorem claim_C3 (url : Str) (fo : FetchOutcome) (t i b : Str) :
    (scrape_property_data url fo).current_value = none
    ∧ (pyStrip (t.takeWhile (fun c => !(c = '|'))) ≠ [] →
        (scrape_property_data url (.response 200 (some t) (some i) b)).address
          = pyStrip (t.takeWhile (fun c => !(c = '|'))))
    ∧ (i ≠ [] →
        (scrape_property_data url (.response 200 (some t) (some i) b)).image_url
          = some i)
    ∧ scrape_property_data url (.response 200 none none b) = scrapeFloor url := by
  refine ⟨?_, ?_, ?_, rfl⟩
  · rcases fo with _ | ⟨st, ot, oi, bt⟩
    · rfl
    · by_cases hst : st = 200
      · subst hst
        simp only [scrape_property_data]
        rcases ot with _ | tt <;> rcases oi with _ | ii <;>
          simp [scrapeFloor] <;> split_ifs <;> rfl
      · simp [scrape_property_data, hst, scrapeFloor]
  · intro hti
    have ht : t ≠ [] := by
      intro hteq
      subst hteq
      exact hti rfl
    simp only [scrape_property_data]
    simp [ht, hti]
    split_ifs <;> rfl
  · intro hi
    simp only [scrape_property_data]
    simp [hi]

/-- C3, witness: the amended theorem at a 200 response carrying an
`og:title` of `42 Wallaby Way, Sydney | property.com.au` and an image URL. -/
theorem claim_C3_witness :
    (scrape_property_data url0
      (.response 200 (some ("42 Wallaby Way, Sydney | property.com.au".data))
        (some ("https://img.example/1.jpg".data)) [])).address
      = "42 Wallaby Way, Sydney".data ∧
    (scrape_property_data url0
      (.response 200 (some ("42 Wallaby Way, Sydney | property.com.au".data))
        (some ("https://img.example/1.jpg".data)) [])).image_url
      = some ("https://img.example/1.jpg".data) := by
  have h := claim_C3 url0
    (.response 200 (some ("42 Wallaby Way, Sydney | property.com.au".data))
      (some ("https://img.example/1.jpg".data)) [])
    ("42 Wallaby Way, Sydney | property.com.au".data)
    ("https://img.example/1.jpg".data) []
  constructor
  · rw [h.2.1 (by decide)]
    decide
  · exact h.2.2.1 (by decide)

-- ===================== C10 =====================

/-- Totality of the descending creation-timestamp preorder. -/
instance : IsTotal PropertyRec (fun a b => b.created_at ≤ a.created_at) :=
  ⟨fun a b => Nat.le_total b.created_at a.created_at⟩

/-- Transitivity of the descending creation-timestamp preorder. -/
instance : IsTrans PropertyRec (fun a b => b.created_at ≤ a.created_at) :=
  ⟨fun _ _ _ hab hbc => Nat.le_trans hbc hab⟩

/-- C10: the list-properties operation returns at most 100 records, in
descending creation-timestamp order (newest first), for every stored record
set and every combination of search, suburb and purpose filters. -/
theorem claim_C10 (db : List PropertyRec)
    (search suburbF ptypeF : Option Str) :
    (get_properties db search suburbF ptypeF).length ≤ 100
    ∧ List.Sorted (fun a b => b.created_at ≤ a.created_at)
        (get_properties db search suburbF ptypeF) := by
  constructor
  · simp only [get_properties]
    exact List.length_take_le 100 _
  · have hs := List.sorted_insertionSort
      (fun a b : PropertyRec => b.created_at ≤ a.created_at)
      ((db.filter (propertyQuery search suburbF ptypeF)))
    exact List.Pairwise.sublist (List.take_sublist _ _) hs

-- ===================== C7 =====================

/-- Unfolding of `Char.toLower` as a plain conditional. -/
theorem toLower_eq_ite (c : Char) :
    Char.toLower c =
      (if c.toNat ≥ 65 ∧ c.toNat ≤ 90 then Char.ofNat (c.toNat + 32)
       else c) := rfl

/-- Unfolding of `Char.toUpper` as a plain conditional. -/
theorem toUpper_eq_ite (c : Char) :
    Char.toUpper c =
      (if c.toNat ≥ 97 ∧ c.toNat ≤ 122 then Char.ofNat (c.toNat - 32)
       else c) := rfl

/-- Lower-casing fixes every character whose lower-case form is a digit. -/
theorem toLower_isDigit_fix {c : Char} (h : (Char.toLower c).isDigit = true) :
    Char.toLower c = c := by
  rw [toLower_eq_ite] at h ⊢
  by_cases hc : c.toNat ≥ 65 ∧ c.toNat ≤ 90
  · exfalso
    rw [if_pos hc] at h
    obtain ⟨h1, h2⟩ := hc
    generalize hg : Char.toNat c = n at h1 h2 h
    interval_cases n <;> revert h <;> decide
  · rw [if_neg hc]

/-- Upper-casing a lower-case letter yields an upper-case letter. -/
theorem isLower_toUpper_isUpper {c : Char} (h : c.isLower = true) :
    (Char.toUpper c).isUpper = true := by
  simp only [Char.isLower, Bool.and_eq_true, decide_eq_true_eq, ge_iff_le] at h
  obtain ⟨h1, h2⟩ := h
  rw [UInt32.le_def] at h1 h2
  have hb1 : 97 ≤ c.toNat := h1
  have hb2 : c.toNat ≤ 122 := h2
  rw [toUpper_eq_ite, if_pos ⟨hb1, hb2⟩]
  generalize hg : Char.toNat c = n at hb1 hb2
  interval_cases n <;> decide

/-- A list whose lower-cased image is all digits equals its image. -/
theorem map_toLower_digits : ∀ {m g : Str}, m.map Char.toLower = g →
    (∀ c ∈ g, c.isDigit = true) → m = g := by
  intro m
  induction m with
  | nil =>
    intro g hm _
    simpa using hm.symm ▸ rfl
  | cons c t ih =>
    intro g hm hd
    rcases g with _ | ⟨d, gt⟩
    · simp at hm
    · simp only [List.map_cons, List.cons.injEq] at hm
      obtain ⟨hcd, htg⟩ := hm
      have hdt : d.isDigit = true := hd d (List.mem_cons_self d gt)
      have hfix : Char.toLower c = c := by
        apply toLower_isDigit_fix
        rw [hcd]
        exact hdt
      have hc : c = d := by rw [← hfix, hcd]
      have ht : t = gt := ih htg (fun x hx => hd x (List.mem_cons_of_mem d hx))
      rw [hc, ht]

/-- A run of digit characters inside the lower-cased URL also occurs
verbatim inside the original URL. -/
theorem infix_of_map_lower {url a b g : Str}
    (h : url.map Char.toLower = a ++ g ++ b)
    (hd : ∀ c ∈ g, c.isDigit = true) :
    ∃ a' b', url = a' ++ g ++ b' := by
  rw [List.map_eq_append_iff] at h
  obtain ⟨u1, u2, hu, hm1, hm2⟩ := h
  rw [List.map_eq_append_iff] at hm1
  obtain ⟨v1, v2, hv, hma, hmg⟩ := hm1
  have hv2 : v2 = g := map_toLower_digits hmg hd
  refine ⟨v1, u2, ?_⟩
  rw [hu, hv, hv2, List.append_assoc]

/-- The maximal run never exceeds the string length. -/
theorem takeRun_le_length (p : Char → Bool) :
    ∀ s : Str, takeRun p s ≤ s.length := by
  intro s
  induction s with
  | nil => simp [takeRun]
  | cons c t ih =>
    rw [takeRun]
    split
    · simpa using Nat.succ_le_succ ih
    · simp

/-- Every character inside the maximal run satisfies the class. -/
theorem take_all_of_le_takeRun {p : Char → Bool} :
    ∀ {s : Str} {k : Nat}, k ≤ takeRun p s → ∀ c ∈ s.take k, p c = true := by
  intro s
  induction s with
  | nil =>
    intro k _ c hc
    simp at hc
  | cons d t ih =>
    intro k hk c hc
    rcases k with _ | k'
    · simp at hc
    · rw [takeRun] at hk
      by_cases hpd : p d = true
      · rw [if_pos hpd] at hk
        simp only [List.take_succ_cons, List.mem_cons] at hc
        rcases hc with rfl | hc
        · exact hpd
        · exact ih (Nat.le_of_succ_le_succ hk) c hc
      · rw [if_neg hpd] at hk
        omega

/-- Core soundness of the greedy-split candidate list for a fixed greedy
upper bound `top`. -/
theorem splits_core {p : Char → Bool} {lo top : Nat} {s a b : Str}
    (htop : top ≤ takeRun p s)
    (h : (a, b) ∈ (if top < lo then ([] : List (Str × Str))
      else (List.range (top + 1 - lo)).map
        (fun i => (s.take (top - i), s.drop (top - i))))) :
    s = a ++ b ∧ (∀ c ∈ a, p c = true) ∧ lo ≤ a.length ∧ a.length ≤ top := by
  by_cases hlt : top < lo
  · rw [if_pos hlt] at h
    simp at h
  · rw [if_neg hlt] at h
    simp only [List.mem_map, List.mem_range] at h
    obtain ⟨i, hilt, heq⟩ := h
    have ha := congrArg Prod.fst heq
    have hb := congrArg Prod.snd heq
    simp only at ha hb
    have hrun_len := takeRun_le_length p s
    have hlen : a.length = top - i := by
      rw [← ha, List.length_take]
      omega
    refine ⟨?_, ?_, by omega, by omega⟩
    · rw [← ha, ← hb, List.take_append_drop]
    · intro c hc
      rw [← ha] at hc
      exact take_all_of_le_takeRun (by omega) c hc

/-- Soundness of the greedy-split candidates: every candidate decomposes the
string, its consumed part lies in the character class, and its length obeys
the quantifier bounds. -/
theorem splits_mem {p : Char → Bool} {lo : Nat} {hi : Option Nat}
    {s a b : Str} (h : (a, b) ∈ splits p lo hi s) :
    s = a ++ b ∧ (∀ c ∈ a, p c = true) ∧ lo ≤ a.length ∧
      (∀ n, hi = some n → a.length ≤ n) := by
  unfold splits at h
  rcases hi with _ | n
  · dsimp only at h
    have hc := splits_core (Nat.le_refl (takeRun p s)) h
    exact ⟨hc.1, hc.2.1, hc.2.2.1, fun n hn => by cases hn⟩
  · dsimp only at h
    have hc := splits_core (Nat.min_le_right n (takeRun p s)) h
    refine ⟨hc.1, hc.2.1, hc.2.2.1, ?_⟩
    intro m hm
    obtain rfl : n = m := by injection hm
    exact Nat.le_trans hc.2.2.2 (Nat.min_le_left n (takeRun p s))

/-- Consuming an expected literal character decomposes the string. -/
theorem expect_some {c : Char} {s t : Str} (h : expect c s = some t) :
    s = c :: t := by
  cases s with
  | nil => simp [expect] at h
  | cons d s' =>
    rw [expect] at h
    split at h
    · rename_i hdc
      obtain rfl : s' = t := by injection h
      rw [hdc]
    · cases h

/-- Soundness of the anchored structured-pattern matcher: the postcode group
is exactly 4 digit characters, the state group is lower-case letters, and
the postcode occurs verbatim in the matched string. -/
theorem matchP1At_some {s : Str} {g1 g2 g3 g4 g5 : Str}
    (h : matchP1At s = some (g1, g2, g3, g4, g5)) :
    g3.length = 4 ∧ (∀ c ∈ g3, c.isDigit = true) ∧
      (∀ c ∈ g1, c.isLower = true) ∧ ∃ a b, s = a ++ g3 ++ b := by
  unfold matchP1At at h
  rw [Option.bind_eq_some] at h
  obtain ⟨s1, he1, h⟩ := h
  have hs : s = '/' :: s1 := expect_some he1
  obtain ⟨⟨g1', s2⟩, hmem1, h⟩ := List.exists_of_findSome?_eq_some h
  obtain ⟨hsp1, hall1, -, -⟩ := splits_mem hmem1
  rw [Option.bind_eq_some] at h
  obtain ⟨s3, he3, h⟩ := h
  have hs2 : s2 = '/' :: s3 := expect_some he3
  obtain ⟨⟨g2', s4⟩, hmem2, h⟩ := List.exists_of_findSome?_eq_some h
  obtain ⟨hsp2, -, -, -⟩ := splits_mem hmem2
  rw [Option.bind_eq_some] at h
  obtain ⟨s5, he5, h⟩ := h
  have hs4 : s4 = '-' :: s5 := expect_some he5
  obtain ⟨⟨g3', s6⟩, hmem3, h⟩ := List.exists_of_findSome?_eq_some h
  obtain ⟨hsp3, hall3, hlo3, hhi3⟩ := splits_mem hmem3
  rw [Option.bind_eq_some] at h
  obtain ⟨s7, he7, h⟩ := h
  obtain ⟨⟨g4', s8⟩, hmem4, h⟩ := List.exists_of_findSome?_eq_some h
  rw [Option.bind_eq_some] at h
  obtain ⟨s9, he9, h⟩ := h
  obtain ⟨⟨d0, s10⟩, hmem5, h⟩ := List.exists_of_findSome?_eq_some h
  obtain ⟨⟨l0, s11⟩, hmem6, h⟩ := List.exists_of_findSome?_eq_some h
  rw [Option.map_eq_some'] at h
  obtain ⟨s12, -, heq⟩ := h
  simp only [Prod.mk.injEq] at heq
  obtain ⟨hg1, hg2, hg3, hg4, hg5⟩ := heq
  subst hg1
  subst hg2
  subst hg3
  refine ⟨?_, hall3, hall1, ?_⟩
  · have h4 := hhi3 4 rfl
    omega
  · refine ⟨'/' :: (g1' ++ '/' :: (g2' ++ ['-'])), s6, ?_⟩
    rw [hs, hsp1, hs2, hsp2, hs4, hsp3]
    simp [List.append_assoc]

/-- Soundness of the leftmost search: a successful search matches the
anchored pattern at some suffix. -/
theorem searchP1_some {s : Str} {r : Caps5} (h : searchP1 s = some r) :
    ∃ a t, s = a ++ t ∧ matchP1At t = some r := by
  induction s with
  | nil => exact ⟨[], [], rfl, h⟩
  | cons c tl ih =>
    rw [searchP1] at h
    rcases hm : matchP1At (c :: tl) with _ | r'
    · rw [hm] at h
      obtain ⟨a, t, ht, hmt⟩ := ih h
      refine ⟨c :: a, t, ?_, hmt⟩
      rw [ht]
      rfl
    · rw [hm] at h
      obtain rfl : r' = r := by injection h
      exact ⟨[], c :: tl, rfl, hm⟩

/-- C7: the address extractor is a total function; whenever the structured
pattern matches the lower-cased URL with groups (state, suburb, postcode,
street, number), the result's postcode is exactly the captured 4-digit group
(which occurs verbatim in the URL), the state is the upper-cased group (all
upper-case characters), suburb and street are de-hyphenated and title-cased,
and the address is synthesized as `number street, suburb STATE postcode`;
when neither pattern matches, every result field is empty. -/
theorem claim_C7 (url : Str) :
    (∀ g1 g2 g3 g4 g5,
      searchP1 (pyLower url) = some (g1, g2, g3, g4, g5) →
        (parse_address_from_url url).postcode = some g3
        ∧ g3.length = 4 ∧ (∀ c ∈ g3, c.isDigit = true)
        ∧ (∃ a b, url = a ++ g3 ++ b)
        ∧ (parse_address_from_url url).state = some (g1.map Char.toUpper)
        ∧ (∀ c ∈ g1.map Char.toUpper, c.isUpper = true)
        ∧ (parse_address_from_url url).suburb = some (pyTitle (replDash g2))
        ∧ (parse_address_from_url url).address
            = g5 ++ [' '] ++ pyTitle (replDash g4) ++ [',', ' ']
              ++ pyTitle (replDash g2) ++ [' '] ++ g1.map Char.toUpper
              ++ [' '] ++ g3)
    ∧ (searchP1 (pyLower url) = none → searchP2 url = none →
        parse_address_from_url url =
          { address := [], suburb := none, state := none, postcode := none }) := by
  constructor
  · intro g1 g2 g3 g4 g5 h
    obtain ⟨a0, t, hdec, hmatch⟩ := searchP1_some h
    obtain ⟨hlen, hdig, hlow, a1, b1, ht⟩ := matchP1At_some hmatch
    have hlower : pyLower url = (a0 ++ a1) ++ g3 ++ b1 := by
      rw [hdec, ht]
      simp [List.append_assoc]
    have hinfix : ∃ a' b', url = a' ++ g3 ++ b' :=
      infix_of_map_lower hlower hdig
    refine ⟨?_, hlen, hdig, hinfix, ?_, ?_, ?_, ?_⟩
    · simp only [parse_address_from_url, h]
    · simp only [parse_address_from_url, h]
    · intro c hc
      simp only [List.mem_map] at hc
      obtain ⟨c', hc', rfl⟩ := hc
      exact isLower_toUpper_isUpper (hlow c' hc')
    · simp only [parse_address_from_url, h]
    · simp only [parse_address_from_url, h]
  · intro h1 h2
    simp only [parse_address_from_url, h1, h2]

/-- C7, witness: the claim instantiated on a concrete structured listing
URL. -/
theorem claim_C7_witness :
    (parse_address_from_url url0).postcode = some ("2000".data) ∧
    (parse_address_from_url url0).state = some ("NSW".data) ∧
    (parse_address_from_url url0).suburb = some ("Sydney".data) ∧
    (parse_address_from_url url0).address
      = "123 George St, Sydney NSW 2000".data := by
  have hs : searchP1 (pyLower url0)
      = some ("nsw".data, "sydney".data, "2000".data,
          "george-st".data, "123".data) := by decide
  have h := (claim_C7 url0).1 ("nsw".data) ("sydney".data) ("2000".data)
    ("george-st".data) ("123".data) hs
  refine ⟨h.1, ?_, ?_, ?_⟩
  · rw [h.2.2.2.2.1]
    decide
  · rw [h.2.2.2.2.2.2.1]
    decide
  · rw [h.2.2.2.2.2.2.2]
    decide

end PropertyServer
